import Mathlib

/-!
Verification development for the GustoPunch menu-bar utility
(`gusto.py`).  The Python module is shallowly embedded: the mutable
fields of `GustoPunchApp` that the verified properties talk about become
a Lean structure `AppState`, selenium/DOM interactions become explicit
oracle inputs (`PassOutcome`, `LoginInput`, `World`), exceptions of the
Python code become `Except` values or explicit branch conditions, and
each Python method becomes a Lean function following the source line by
line.
-/

namespace GustoPunch

/-- Punch status, the Python strings "in" / "out" / "unknown". -/
inductive Status
  | sIn
  | sOut
  | sUnknown
deriving DecidableEq, Repr

/-- A clock action argument, the Python strings "in" / "out"
passed to `clock_action`. -/
inductive Action
  | actIn
  | actOut
deriving DecidableEq, Repr

/-- The status that a successful `clock_action(action_type)` stores:
`self.status = action_type`. -/
def Action.toStatus : Action → Status
  | .actIn => .sIn
  | .actOut => .sOut

/-- The configuration dictionary: the two optional keys "email" and
"password" of `~/.gusto_punch_config.json`.  `none` models an absent
key. -/
structure ConfigData where
  email : Option String
  password : Option String
deriving DecidableEq, Repr

/-- `is_configured`: `"email" in self.config and "password" in self.config`. -/
def is_configured (c : ConfigData) : Bool :=
  c.email.isSome && c.password.isSome

/-- The mutable fields of `GustoPunchApp` the verified claims are about.
`clockInTime` is the in-memory `self.clock_in_time` (epoch seconds,
`none` for Python `None`); `savedClockInTime` is the value persisted in
`~/.gusto_punch_timer.json`; `clockInCb` / `clockOutCb` record whether
the two menu items currently have a non-null callback. -/
structure AppState where
  status : Status
  title : String
  clockInTime : Option Nat
  savedClockInTime : Option Nat
  driverPresent : Bool
  sessionActive : Bool
  clockInCb : Bool
  clockOutCb : Bool
  config : ConfigData
deriving DecidableEq, Repr

/-- Python truthiness of `self.clock_in_time` (a float or `None`):
`None` and `0.0` are falsy. -/
def truthy : Option Nat → Bool
  | none => false
  | some t => t != 0

/-- `save_timer_state`: writes `{"clock_in_time": self.clock_in_time}`
to the timer file. -/
def save_timer_state (s : AppState) : AppState :=
  { s with savedClockInTime := s.clockInTime }

/-- `update_menu_state`: status "out" enables Clock In and nulls the
Clock Out callback; "in" nulls Clock In and enables Clock Out; any other
status enables both. -/
def update_menu_state (s : AppState) : AppState :=
  match s.status with
  | .sOut => { s with clockInCb := true, clockOutCb := false }
  | .sIn => { s with clockInCb := false, clockOutCb := true }
  | .sUnknown => { s with clockInCb := true, clockOutCb := true }

/-- The outcome of one detection pass of `check_status_from_driver`:
which of the probed DOM elements were found.  One pass probes for the
"Clock in" element, then (on timeout) for the "Clock out" element, then
(on timeout) lets `handle_remember_device_page` probe for the
"Remember this device" button, whose click is the dismissal. -/
inductive PassOutcome
  | clockInFound
  | clockOutFound
  | neitherDismissOk
  | neitherNoDismiss
deriving DecidableEq, Repr

/-- The "clock in button present" branch of `check_status_from_driver`:
status "out", title "⏱☒", timer cleared and saved, menu refreshed. -/
def detectOut (s : AppState) : AppState :=
  update_menu_state (save_timer_state
    { s with status := .sOut, title := "⏱☒", clockInTime := none })

/-- The "clock out button present" branch of `check_status_from_driver`:
status "in", title "⏱☑"; the timestamp is set to the current time and
saved only when `self.clock_in_time` is falsy; menu refreshed. -/
def detectIn (now : Nat) (s : AppState) : AppState :=
  let s1 := { s with status := .sIn, title := "⏱☑" }
  let s2 :=
    if truthy s1.clockInTime then s1
    else save_timer_state { s1 with clockInTime := some now }
  update_menu_state s2

/-- The "neither button found and no remember-device page" branch:
status "unknown", title "⏱", timer cleared and saved, menu refreshed. -/
def detectUnknown (s : AppState) : AppState :=
  update_menu_state (save_timer_state
    { s with status := .sUnknown, title := "⏱", clockInTime := none })

/-- `check_status_from_driver`, driven by the list of per-pass DOM-probe
outcomes; the recursive call on `neitherDismissOk` mirrors
`self.check_status_from_driver(driver)` after
`handle_remember_device_page` returned `True`.  Returns the resulting
state and the number of detection passes performed; an exhausted
outcome list leaves the state unchanged. -/
def check_status_from_driver (now : Nat) :
    List PassOutcome → AppState → AppState × Nat
  | [], s => (s, 0)
  | o :: rest, s =>
    match o with
    | .clockInFound => (detectOut s, 1)
    | .clockOutFound => (detectIn now s, 1)
    | .neitherNoDismiss => (detectUnknown s, 1)
    | .neitherDismissOk =>
      let r := check_status_from_driver now rest s
      (r.1, r.2 + 1)

/-- The outcome list provides a terminal (non-retry) outcome before it
is exhausted, i.e. the modelled run of `check_status_from_driver`
finishes with one of the three terminal branches. -/
def completesRun : List PassOutcome → Bool
  | [] => false
  | .neitherDismissOk :: rest => completesRun rest
  | _ :: _ => true

/-- Number of leading `neitherDismissOk` outcomes: how many times the
detector dismisses the interstitial and retries. -/
def leadingDismissals : List PassOutcome → Nat
  | .neitherDismissOk :: rest => leadingDismissals rest + 1
  | _ => 0

/-- The terminal outcome a detector run ends with, if any. -/
def terminalOutcome : List PassOutcome → Option PassOutcome
  | [] => none
  | .neitherDismissOk :: rest => terminalOutcome rest
  | o :: _ => some o

/-- The external inputs consumed by one execution of `handle_login`:
which optional elements appear within their timeouts, and what the user
does with the 2FA dialog.  `twoFACode` is the stripped dialog text. -/
structure LoginInput where
  alreadyLoggedIn : Bool
  emailField : Bool
  passwordField : Bool
  twoFAPrompt : Bool
  twoFAClicked : Bool
  twoFACode : String
  loginVerified : Bool
deriving DecidableEq, Repr

/-- `handle_login`: returns whether login succeeded.  The email-field
probe only types into the page, so `emailField` does not affect the
result; a missing password field is the `TimeoutException` caught at the
end of the outer password block, returning `False`; on the 2FA path a
cancelled dialog or an empty stripped code returns `False`; either path
then requires the clock in/out element to appear within 10s
(`loginVerified`). -/
def handle_login (li : LoginInput) : Bool :=
  if li.alreadyLoggedIn then true
  else if !li.passwordField then false
  else if li.twoFAPrompt then
    if li.twoFAClicked then
      if li.twoFACode = "" then false
      else li.loginVerified
    else false
  else li.loginVerified

/-- `driver.quit()` as a fallible call: `.error` models the call
raising. -/
def driverQuit (quitRaises : Bool) : Except Unit Unit :=
  if quitRaises then .error () else .ok ()

/-- `close_browser_session`: under the lock, if a driver exists, quit it
(swallowing any exception: both arms of the match proceed identically),
drop the handle and mark the session inactive; with no driver the whole
body is skipped. -/
def close_browser_session (quitRaises : Bool) (s : AppState) : AppState :=
  if s.driverPresent then
    match driverQuit quitRaises with
    | .ok _ => { s with driverPresent := false, sessionActive := false }
    | .error _ => { s with driverPresent := false, sessionActive := false }
  else s

/-- The external inputs consumed by the session manager and the clock
action executor: whether each selenium call succeeds, the DOM-probe
outcomes available to `check_status_from_driver`, the login-flow inputs
and the current time. -/
structure World where
  probeOk : Bool
  staleQuitRaises : Bool
  createOk : Bool
  quitRaises : Bool
  navLoginOk : Bool
  navDashOk : Bool
  login : LoginInput
  outcomes : List PassOutcome
  buttonWait : Bool
  disappearOk : Bool
  now : Nat
deriving DecidableEq, Repr

/-- The part of `init_browser_session` after any stale handle has been
discarded: create a driver (`createOk` false models `get_chrome_driver`
raising, handled by the outer except which closes the session), mark the
session active, navigate to the login page, run `handle_login`, and on
success run `check_status_from_driver`; a failed login closes the
session. -/
def init_fresh (w : World) (s : AppState) : AppState × Bool :=
  if !w.createOk then (close_browser_session w.quitRaises s, false)
  else
    let s1 := { s with driverPresent := true, sessionActive := true }
    if !w.navLoginOk then (close_browser_session w.quitRaises s1, false)
    else if handle_login w.login then
      ((check_status_from_driver w.now w.outcomes s1).1, true)
    else (close_browser_session w.quitRaises s1, false)

/-- `init_browser_session`: under the lock, an existing driver is probed
with `driver.current_url`; on success the session is just marked active,
on exception the stale driver is quit (exception swallowed) and dropped
before a fresh session is created. -/
def init_browser_session (w : World) (s : AppState) : AppState × Bool :=
  if s.driverPresent then
    if w.probeOk then ({ s with sessionActive := true }, true)
    else
      init_fresh w
        (match driverQuit w.staleQuitRaises with
         | _ => { s with driverPresent := false })
  else init_fresh w s

/-- `restart_browser_session`: close then re-initialize (the
notification it posts has no modelled state). -/
def restart_browser_session (w : World) (s : AppState) : AppState × Bool :=
  init_browser_session w (close_browser_session w.quitRaises s)

/-- How a `clock_action` call ends: the notification or alert it posts. -/
inductive ClockResult
  | notConfigured
  | initFailed
  | navFailed
  | success
  | alreadyClockedIn
  | alreadyClockedOut
  | buttonNotFound
deriving DecidableEq, Repr

/-- Result of `clock_action`: final state, which notification/alert was
posted, whether `restart_browser_session` was triggered, and whether any
browser interaction was performed. -/
structure ClockOut where
  state : AppState
  result : ClockResult
  restarted : Bool
  touchedBrowser : Bool
deriving DecidableEq, Repr

/-- The tail of `clock_action` from `handle_remember_device_page` on:
wait up to 10s for the requested clock button to be clickable, click it,
wait for it to disappear, then update status, title and timer, persist
and refresh the menu.  A `TimeoutException` from either wait is caught
by the handler at the bottom: if the requested action equals the current
status it posts the benign "Already clocked in/out" notification and
changes nothing, otherwise it alerts and runs
`restart_browser_session`. -/
def clock_action_try (w : World) (a : Action) (s : AppState) : ClockOut :=
  if w.buttonWait && w.disappearOk then
    let s1 := { s with
      status := a.toStatus
      title := if a = .actIn then "⏱☑" else "⏱☒"
      clockInTime := if a = .actIn then some w.now else none }
    ⟨update_menu_state (save_timer_state s1), .success, false, true⟩
  else
    match a, s.status with
    | .actIn, .sIn => ⟨s, .alreadyClockedIn, false, true⟩
    | .actOut, .sOut => ⟨s, .alreadyClockedOut, false, true⟩
    | _, _ => ⟨(restart_browser_session w s).1, .buttonNotFound, true, true⟩

/-- The dashboard-navigation step of `clock_action`: on a navigation
exception it retries `init_browser_session` and, when that succeeds,
continues with the button wait. -/
def clock_action_go (w : World) (a : Action) (s : AppState) : ClockOut :=
  if w.navDashOk then clock_action_try w a s
  else
    let r := init_browser_session w s
    if r.2 then clock_action_try w a r.1
    else ⟨r.1, .navFailed, false, true⟩

/-- `clock_action`: under the lock, abort with an alert when
unconfigured; ensure a session (initializing one when inactive); then
navigate to the dashboard and perform the action. -/
def clock_action (w : World) (a : Action) (s : AppState) : ClockOut :=
  if !is_configured s.config then ⟨s, .notConfigured, false, false⟩
  else if !s.sessionActive then
    let r := init_browser_session w s
    if r.2 then clock_action_go w a r.1
    else ⟨r.1, .initFailed, false, true⟩
  else clock_action_go w a s

/-- The dashboard-navigation step of `check_status`: on a navigation
exception it retries `init_browser_session`, returning when that fails;
then reads the status from the driver.  The second component records
that the browser was touched. -/
def check_status_nav (w : World) (s : AppState) : AppState × Bool :=
  if w.navDashOk then ((check_status_from_driver w.now w.outcomes s).1, true)
  else
    let r := init_browser_session w s
    if r.2 then ((check_status_from_driver w.now w.outcomes r.1).1, true)
    else (r.1, true)

/-- `check_status`: under the lock, return immediately when
unconfigured; ensure a session (initializing one when inactive and
returning if that fails); then navigate to the dashboard and run the
detector. -/
def check_status (w : World) (s : AppState) : AppState × Bool :=
  if !is_configured s.config then (s, false)
  else if !s.sessionActive then
    let r := init_browser_session w s
    if r.2 then check_status_nav w r.1 else (r.1, true)
  else check_status_nav w s

/-- The `except Exception` handler of `check_status`
(`self.status = "unknown"; self.title = "⏱"`) before it closes and
re-initializes the session; the timer and menu are not touched there. -/
def check_status_err (s : AppState) : AppState :=
  { s with status := .sUnknown, title := "⏱" }

/-- State of a JSON file on disk: absent, present but unreadable or
unparseable (any exception while opening/parsing/converting), or parsed
content. -/
inductive FileState (α : Type)
  | missing
  | corrupt
  | valid (a : α)
deriving DecidableEq, Repr

/-- The body of `load_config` as a fallible computation: a missing file
returns `{}` outside the try block, a corrupt one raises inside it. -/
def load_config_raw : FileState ConfigData → Except Unit ConfigData
  | .missing => .ok ⟨none, none⟩
  | .corrupt => .error ()
  | .valid c => .ok c

/-- `load_config`: the except handler logs, alerts and returns `{}`. -/
def load_config (fs : FileState ConfigData) : ConfigData :=
  match load_config_raw fs with
  | .ok c => c
  | .error _ => ⟨none, none⟩

/-- The body of `load_timer_state` as a fallible computation over the
prior in-memory value: a missing file skips the whole body, a corrupt
one (including a `float(...)` conversion failure) raises, and a parsed
file updates `clock_in_time` only when the stored value is truthy. -/
def load_timer_state_raw :
    FileState (Option Nat) → Option Nat → Except Unit (Option Nat)
  | .missing, m => .ok m
  | .corrupt, _ => .error ()
  | .valid v, m => .ok (if truthy v then v else m)

/-- `load_timer_state`: the except handler only logs, leaving the prior
in-memory value in place. -/
def load_timer_state (fs : FileState (Option Nat)) (m : Option Nat) :
    Option Nat :=
  match load_timer_state_raw fs m with
  | .ok r => r
  | .error _ => m

/-- What `GustoPunchApp.__init__` does after loading the config: prompt
for setup when unconfigured, otherwise initialize the browser
session. -/
inductive StartupAction
  | promptSetup
  | initSession
deriving DecidableEq, Repr

/-- The configuration branch of `GustoPunchApp.__init__`. -/
def startup_branch (c : ConfigData) : StartupAction :=
  if is_configured c then .initSession else .promptSetup

/-- The state-mutating operations of the app, used to quantify over the
executions reachable through the menu, the timer and the session
manager.  `opCheckStatusErr` is the `except` handler of `check_status`;
`opMenuUpdate` is the direct call at the end of `__init__`. -/
inductive AppOp
  | opDetect (now : Nat) (outcomes : List PassOutcome)
  | opClock (w : World) (a : Action)
  | opInit (w : World)
  | opClose (quitRaises : Bool)
  | opCheckStatus (w : World)
  | opCheckStatusErr
  | opMenuUpdate

/-- Effect of one operation on the app state. -/
def appStep : AppOp → AppState → AppState
  | .opDetect now outcomes, s => (check_status_from_driver now outcomes s).1
  | .opClock w a, s => (clock_action w a s).state
  | .opInit w, s => (init_browser_session w s).1
  | .opClose quitRaises, s => close_browser_session quitRaises s
  | .opCheckStatus w, s => (check_status w s).1
  | .opCheckStatusErr, s => check_status_err s
  | .opMenuUpdate, s => update_menu_state s

/-- Run a sequence of operations. -/
def runOps : List AppOp → AppState → AppState
  | [], s => s
  | op :: rest, s => runOps rest (appStep op s)

/-- The menu invariant: a definite status has the matching clock
action's callback nulled out. -/
def MenuInv (s : AppState) : Prop :=
  (s.status = .sIn → s.clockInCb = false) ∧
  (s.status = .sOut → s.clockOutCb = false)

/-- The `clock_in` menu handler guard:
`if self.clock_in_item.callback: self.clock_action("in")`.  Returns
whether `clock_action("in")` is invoked. -/
def clock_in_fires (s : AppState) : Bool := s.clockInCb

/-- The `clock_out` menu handler guard. -/
def clock_out_fires (s : AppState) : Bool := s.clockOutCb

/-- The steps of `first_time_login` that touch a browser handle,
abstracted to which handle they open, access or close.  `tempProbe`
steps are DOM interactions with the temporary driver, performed without
holding `driver_lock`; `closeSessionCall` and `initSessionCall` are the
`close_browser_session()` / `init_browser_session()` calls near the end,
which acquire the lock internally and close/open the persistent
handle. -/
inductive FtlStep
  | createTemp
  | tempProbe
  | closeSessionCall
  | initSessionCall
  | quitTemp
deriving DecidableEq, Repr

/-- Which handles are open: the temporary driver of `first_time_login`
and the persistent `self.driver`. -/
structure Handles where
  temp : Bool
  persistent : Bool
deriving DecidableEq, Repr

/-- Number of open browser handles. -/
def Handles.count (h : Handles) : Nat :=
  (if h.temp then 1 else 0) + (if h.persistent then 1 else 0)

/-- Effect of one `first_time_login` step on the open handles. -/
def ftlStepHandles : FtlStep → Handles → Handles
  | .createTemp, h => { h with temp := true }
  | .tempProbe, h => h
  | .closeSessionCall, h => { h with persistent := false }
  | .initSessionCall, h => { h with persistent := true }
  | .quitTemp, h => { h with temp := false }

/-- Whether `driver_lock` is held while the step runs: only the calls
into the session manager acquire it; all temporary-driver work runs
without it. -/
def ftlStepLocked : FtlStep → Bool
  | .createTemp => false
  | .tempProbe => false
  | .closeSessionCall => true
  | .initSessionCall => true
  | .quitTemp => false

/-- The browser-handle steps of `first_time_login` on its successful 2FA
path, in source order: create the temporary driver; navigate and fill
email, submit, password, remember-checkbox, submit, 2FA code,
remember-checkbox, submit, remember-device page, logged-in wait,
status check (all on the temporary driver); then
`close_browser_session()` and `init_browser_session()`; finally the
`finally:` block quits the temporary driver. -/
def first_time_login_steps : List FtlStep :=
  [.createTemp,
   .tempProbe, .tempProbe, .tempProbe, .tempProbe, .tempProbe, .tempProbe,
   .tempProbe, .tempProbe, .tempProbe, .tempProbe, .tempProbe, .tempProbe,
   .closeSessionCall, .initSessionCall,
   .quitTemp]

/-- Handle-set after each prefix of a step list. -/
def ftlTrace : List FtlStep → Handles → List Handles
  | [], _ => []
  | st :: rest, h =>
    let h1 := ftlStepHandles st h
    h1 :: ftlTrace rest h1

/-- Open-handle counts after each step of `first_time_login`, starting
from the state `setup` leaves behind (no handles open: it just called
`close_browser_session`). -/
def first_time_login_counts : List Nat :=
  (ftlTrace first_time_login_steps ⟨false, false⟩).map Handles.count

/-- The timeout handler's test in `clock_action`: the requested action
equals the currently known status
(`action_type == "in" and self.status == "in"`, or the same for
"out"). -/
def matchesStatus (a : Action) (st : Status) : Bool :=
  match a, st with
  | .actIn, .sIn => true
  | .actOut, .sOut => true
  | _, _ => false

/-- A login input where no 2FA prompt appears and login verifies. -/
def loginPlain : LoginInput :=
  ⟨false, true, true, false, false, "", true⟩

/-- A login input where the 2FA prompt appears and the user cancels the
dialog. -/
def loginCancelled : LoginInput :=
  ⟨false, true, true, true, false, "", true⟩

/-- A world where every selenium interaction succeeds and the dashboard
shows the "Clock in" element. -/
def worldSmooth : World :=
  ⟨true, false, true, false, true, true, loginPlain, [.clockInFound],
   true, true, 42⟩

/-- A world where the wait for the clock button to become clickable
times out. -/
def worldTimeout : World :=
  ⟨true, false, true, false, true, true, loginPlain, [.clockInFound],
   false, true, 42⟩

/-- A world whose login flow hits the 2FA prompt and the user cancels. -/
def worldCancelled : World :=
  ⟨true, false, true, false, true, true, loginCancelled, [.clockInFound],
   true, true, 42⟩

/-- A configured state with an active session, clocked in, with the
in-memory and persisted timestamps agreeing. -/
def stateIn : AppState :=
  ⟨.sIn, "⏱☑", some 5, some 5, true, true, false, true,
   ⟨some "a@b.c", some "pw"⟩⟩

/-- A configured state with an active session, clocked out. -/
def stateOut : AppState :=
  ⟨.sOut, "⏱☒", none, none, true, true, true, false,
   ⟨some "a@b.c", some "pw"⟩⟩

/-- An unconfigured state (no config keys), as on a fresh install. -/
def stateUnconfigured : AppState :=
  ⟨.sUnknown, "⏱", none, none, false, false, true, true, ⟨none, none⟩⟩

/-- A state with no driver handle but `session_active` still `True`:
reached when a stale driver is discarded inside `init_browser_session`
and `get_chrome_driver` then raises, so `close_browser_session` finds
no driver and leaves the flag untouched. -/
def staleFlagState : AppState :=
  ⟨.sUnknown, "⏱", none, none, false, true, true, true,
   ⟨some "a@b.c", some "pw"⟩⟩

section Lemmas

@[simp] lemma update_menu_state_status (s : AppState) :
    (update_menu_state s).status = s.status := by
  unfold update_menu_state
  cases s.status <;> rfl

@[simp] lemma update_menu_state_clockInTime (s : AppState) :
    (update_menu_state s).clockInTime = s.clockInTime := by
  unfold update_menu_state
  cases s.status <;> rfl

@[simp] lemma update_menu_state_savedClockInTime (s : AppState) :
    (update_menu_state s).savedClockInTime = s.savedClockInTime := by
  unfold update_menu_state
  cases s.status <;> rfl

@[simp] lemma detectOut_status (s : AppState) : (detectOut s).status = .sOut := by
  simp [detectOut, save_timer_state]

@[simp] lemma detectOut_saved (s : AppState) :
    (detectOut s).savedClockInTime = none := by
  simp [detectOut, save_timer_state]

@[simp] lemma detectOut_time (s : AppState) : (detectOut s).clockInTime = none := by
  simp [detectOut, save_timer_state]

@[simp] lemma detectUnknown_status (s : AppState) :
    (detectUnknown s).status = .sUnknown := by
  simp [detectUnknown, save_timer_state]

@[simp] lemma detectUnknown_saved (s : AppState) :
    (detectUnknown s).savedClockInTime = none := by
  simp [detectUnknown, save_timer_state]

@[simp] lemma detectUnknown_time (s : AppState) :
    (detectUnknown s).clockInTime = none := by
  simp [detectUnknown, save_timer_state]

@[simp] lemma detectIn_status (now : Nat) (s : AppState) :
    (detectIn now s).status = .sIn := by
  unfold detectIn
  by_cases h : truthy s.clockInTime <;> simp [h, save_timer_state]

lemma detectIn_saved (now : Nat) (s : AppState) :
    (detectIn now s).savedClockInTime =
      if truthy s.clockInTime then s.savedClockInTime else some now := by
  unfold detectIn
  by_cases h : truthy s.clockInTime <;> simp [h, save_timer_state]

lemma detectIn_time (now : Nat) (s : AppState) :
    (detectIn now s).clockInTime =
      if truthy s.clockInTime then s.clockInTime else some now := by
  unfold detectIn
  by_cases h : truthy s.clockInTime <;> simp [h, save_timer_state]

end Lemmas

/-- C9: a missing or unparseable configuration file yields the empty
configuration (so `is_configured` is false) and a missing or corrupt
timer file leaves the in-memory clock-in time absent; both loaders are
total functions here — the `Except` result of the raw body is caught, so
neither raises to its caller. -/
theorem corrupt_files_yield_empty_state :
    load_config .missing = ⟨none, none⟩ ∧
    load_config .corrupt = ⟨none, none⟩ ∧
    is_configured (load_config .missing) = false ∧
    is_configured (load_config .corrupt) = false ∧
    (∀ fs : FileState ConfigData,
      load_config_raw fs = .error () → load_config fs = ⟨none, none⟩) ∧
    load_timer_state .missing none = none ∧
    load_timer_state .corrupt none = none ∧
    (∀ fs : FileState (Option Nat), ∀ m : Option Nat,
      load_timer_state_raw fs m = .error () → load_timer_state fs m = m) := by
  refine ⟨rfl, rfl, rfl, rfl, ?_, rfl, rfl, ?_⟩
  · intro fs h
    simp [load_config, h]
  · intro fs m h
    simp [load_timer_state, h]

/-- C6: with no credentials configured, `__init__` prompts for setup
instead of initializing a browser session, and both `clock_action` and
`check_status` return at their `is_configured` guard without touching
the browser or the state. -/
theorem unconfigured_blocks_automation (w : World) (a : Action) (s : AppState)
    (h : is_configured s.config = false) :
    clock_action w a s = ⟨s, .notConfigured, false, false⟩ ∧
    check_status w s = (s, false) ∧
    startup_branch s.config = .promptSetup := by
  refine ⟨?_, ?_, ?_⟩ <;>
    simp [clock_action, check_status, startup_branch, h]

/-- Witness for C6 at the fresh-install state. -/
theorem unconfigured_blocks_automation_witness :
    clock_action worldSmooth .actIn stateUnconfigured =
      ⟨stateUnconfigured, .notConfigured, false, false⟩ ∧
    check_status worldSmooth stateUnconfigured = (stateUnconfigured, false) ∧
    startup_branch stateUnconfigured.config = .promptSetup :=
  unconfigured_blocks_automation worldSmooth .actIn stateUnconfigured (by decide)

/-- C3 counterexample: with probe outcomes where the first two passes
find neither clock element but do find (and dismiss) the
remember-device interstitial, `check_status_from_driver` performs three
detection passes in a single call — the retry is not limited to one. -/
theorem detector_three_passes :
    (check_status_from_driver 0
        [.neitherDismissOk, .neitherDismissOk, .neitherNoDismiss]
        stateOut).2 = 3 ∧
    ¬ ((check_status_from_driver 0
        [.neitherDismissOk, .neitherDismissOk, .neitherNoDismiss]
        stateOut).2 ≤ 2) := by
  decide

/-- C3 amended: the detector performs one further detection pass per
successful interstitial dismissal — `1 + (number of leading successful
dismissals)` passes in total, with no a-priori bound of two — and when
the final pass finds neither element and the dismissal attempt fails it
sets status to "unknown" and clears the persisted timer. -/
theorem detector_pass_count (now : Nat) (L : List PassOutcome) (s : AppState)
    (h : completesRun L = true) :
    (check_status_from_driver now L s).2 = leadingDismissals L + 1 ∧
    (terminalOutcome L = some .neitherNoDismiss →
      (check_status_from_driver now L s).1.status = .sUnknown ∧
      (check_status_from_driver now L s).1.savedClockInTime = none) := by
  induction L with
  | nil => simp [completesRun] at h
  | cons o rest ih =>
    cases o with
    | clockInFound =>
      simp [check_status_from_driver, leadingDismissals, terminalOutcome]
    | clockOutFound =>
      simp [check_status_from_driver, leadingDismissals, terminalOutcome]
    | neitherNoDismiss =>
      simp [check_status_from_driver, leadingDismissals, terminalOutcome]
    | neitherDismissOk =>
      have h' : completesRun rest = true := h
      obtain ⟨h1, h2⟩ := ih h'
      refine ⟨?_, ?_⟩
      · simp [check_status_from_driver, leadingDismissals, h1]
      · intro ht
        exact h2 ht

/-- Witness for C3's amended theorem on a two-dismissal run. -/
theorem detector_pass_count_witness :
    (check_status_from_driver 0
        [.neitherDismissOk, .neitherDismissOk, .neitherNoDismiss]
        stateOut).2 =
      leadingDismissals
        [.neitherDismissOk, .neitherDismissOk, .neitherNoDismiss] + 1 ∧
    (check_status_from_driver 0
        [.neitherDismissOk, .neitherDismissOk, .neitherNoDismiss]
        stateOut).1.status = .sUnknown := by
  have h := detector_pass_count 0
    [.neitherDismissOk, .neitherDismissOk, .neitherNoDismiss]
    stateOut (by decide)
  exact ⟨h.1, (h.2 (by decide)).1⟩

/-- C8 counterexample: from the reachable state with no driver handle
but `session_active` still `True`, one call to `close_browser_session`
is a complete no-op, so the final state does not have
`session_active = False` as the claim asserts. -/
theorem close_browser_session_noop_keeps_flag :
    close_browser_session false staleFlagState = staleFlagState ∧
    (close_browser_session false staleFlagState).sessionActive = true ∧
    ¬ ((close_browser_session false staleFlagState).sessionActive = false) := by
  decide

/-- C8 amended: `close_browser_session` is idempotent and an exception
from `driver.quit()` is swallowed (closing with a raising quit equals
closing with a clean quit); when a driver handle is present the call
ends with the handle dropped and the session marked inactive, but when
no handle is present the whole call is a no-op, leaving a stale
`session_active = True` flag in place. -/
theorem close_browser_session_idempotent (q1 q2 : Bool) (s : AppState) :
    close_browser_session q2 (close_browser_session q1 s) =
      close_browser_session q1 s ∧
    close_browser_session true s = close_browser_session false s ∧
    (s.driverPresent = true →
      (close_browser_session q1 s).driverPresent = false ∧
      (close_browser_session q1 s).sessionActive = false) ∧
    (s.driverPresent = false → close_browser_session q1 s = s) := by
  rcases s with ⟨st, ti, ct, sv, dp, sa, ci, co, cf⟩
  cases dp <;> cases q1 <;> cases q2 <;>
    simp [close_browser_session, driverQuit]

/-- Witness for C8's amended theorem at a state holding a driver. -/
theorem close_browser_session_idempotent_witness :
    close_browser_session false (close_browser_session true stateIn) =
      close_browser_session true stateIn ∧
    (close_browser_session true stateIn).driverPresent = false ∧
    (close_browser_session true stateIn).sessionActive = false := by
  have h := close_browser_session_idempotent true false stateIn
  exact ⟨h.1, (h.2.2.1 (by decide)).1, (h.2.2.1 (by decide)).2⟩

/-- C7 counterexample: on the successful-2FA path of `first_time_login`
two browser handles are open at once — the temporary setup driver is
still open when `init_browser_session` creates the persistent one — and
the temporary driver's DOM interactions run without holding
`driver_lock`. -/
theorem first_time_login_two_handles :
    2 ∈ first_time_login_counts ∧
    FtlStep.tempProbe ∈ first_time_login_steps ∧
    ftlStepLocked .tempProbe = false ∧
    ftlStepLocked .createTemp = false := by
  decide

/-- C7 amended: during `first_time_login` at most two handles are ever
open (the persistent `self.driver` and the one temporary setup driver),
the temporary driver is quit by the `finally:` block so only the
persistent handle survives the call, and the calls that touch the
persistent handle (`close_browser_session`, `init_browser_session`)
do acquire `driver_lock`; only the temporary driver is accessed outside
the lock. -/
theorem first_time_login_handle_bound :
    (∀ n ∈ first_time_login_counts, n ≤ 2) ∧
    (ftlTrace first_time_login_steps ⟨false, false⟩).getLast? =
      some ⟨false, true⟩ ∧
    (∀ st ∈ first_time_login_steps,
      ftlStepLocked st = false →
        st = .createTemp ∨ st = .tempProbe ∨ st = .quitTemp) := by
  decide

/-- Witness for C9's quantified conjuncts. -/
theorem corrupt_files_yield_empty_state_witness :
    load_config .corrupt = ⟨none, none⟩ ∧
    load_timer_state .corrupt (some 3) = some 3 := by
  have h := corrupt_files_yield_empty_state
  exact ⟨h.2.2.2.2.1 .corrupt rfl, h.2.2.2.2.2.2.2 .corrupt (some 3) rfl⟩

/-- Witness for C7's amended theorem. -/
theorem first_time_login_handle_bound_witness :
    (1 ≤ 2) ∧
    (ftlTrace first_time_login_steps ⟨false, false⟩).getLast? =
      some ⟨false, true⟩ := by
  have h := first_time_login_handle_bound
  exact ⟨h.1 1 (by decide), h.2.1⟩

section ClockSuccessLemmas

lemma truthy_ne_none (x : Option Nat) (h : truthy x = true) : x ≠ none := by
  cases x <;> simp [truthy] at h ⊢

lemma clock_action_try_success_state (w : World) (a : Action) (s : AppState)
    (h : (clock_action_try w a s).result = .success) :
    (clock_action_try w a s).state.status = a.toStatus ∧
    (clock_action_try w a s).state.clockInTime =
      (if a = .actIn then some w.now else none) ∧
    (clock_action_try w a s).state.savedClockInTime =
      (if a = .actIn then some w.now else none) := by
  rcases s with ⟨st, ti, ct, sv, dp, sa, ci, co, cf⟩
  by_cases hb : (w.buttonWait && w.disappearOk) = true
  · cases a <;>
      simp [clock_action_try, hb, save_timer_state, Action.toStatus]
  · exfalso
    cases a <;> cases st <;>
      simp [clock_action_try, hb] at h

lemma clock_action_go_success_state (w : World) (a : Action) (s : AppState)
    (h : (clock_action_go w a s).result = .success) :
    (clock_action_go w a s).state.status = a.toStatus ∧
    (clock_action_go w a s).state.clockInTime =
      (if a = .actIn then some w.now else none) ∧
    (clock_action_go w a s).state.savedClockInTime =
      (if a = .actIn then some w.now else none) := by
  by_cases hn : w.navDashOk = true
  · rw [show clock_action_go w a s = clock_action_try w a s by
      simp [clock_action_go, hn]] at h ⊢
    exact clock_action_try_success_state w a s h
  · by_cases hr : (init_browser_session w s).2 = true
    · rw [show clock_action_go w a s =
          clock_action_try w a (init_browser_session w s).1 by
        simp [clock_action_go, hn, hr]] at h ⊢
      exact clock_action_try_success_state w a _ h
    · rw [show clock_action_go w a s =
          ⟨(init_browser_session w s).1, .navFailed, false, true⟩ by
        simp [clock_action_go, hn, hr]] at h
      exact absurd h (by simp)

lemma clock_action_success_state (w : World) (a : Action) (s : AppState)
    (h : (clock_action w a s).result = .success) :
    (clock_action w a s).state.status = a.toStatus ∧
    (clock_action w a s).state.clockInTime =
      (if a = .actIn then some w.now else none) ∧
    (clock_action w a s).state.savedClockInTime =
      (if a = .actIn then some w.now else none) := by
  by_cases hc : is_configured s.config = true
  · by_cases hs : s.sessionActive = true
    · rw [show clock_action w a s = clock_action_go w a s by
        simp [clock_action, hc, hs]] at h ⊢
      exact clock_action_go_success_state w a s h
    · by_cases hr : (init_browser_session w s).2 = true
      · rw [show clock_action w a s =
            clock_action_go w a (init_browser_session w s).1 by
          simp [clock_action, hc, hs, hr]] at h ⊢
        exact clock_action_go_success_state w a _ h
      · rw [show clock_action w a s =
            ⟨(init_browser_session w s).1, .initFailed, false, true⟩ by
          simp [clock_action, hc, hs, hr]] at h
        exact absurd h (by simp)
  · rw [show clock_action w a s = ⟨s, .notConfigured, false, false⟩ by
      simp [clock_action, hc]] at h
    exact absurd h (by simp)

end ClockSuccessLemmas

/-- The detector keeps the persisted and in-memory timestamps in
agreement and leaves the persisted one non-null exactly when the
detected status is "in". -/
lemma detector_sync (now : Nat) (L : List PassOutcome) (s : AppState)
    (hc : completesRun L = true)
    (hs : s.savedClockInTime = s.clockInTime) :
    (check_status_from_driver now L s).1.savedClockInTime =
      (check_status_from_driver now L s).1.clockInTime ∧
    ((check_status_from_driver now L s).1.savedClockInTime ≠ none ↔
      (check_status_from_driver now L s).1.status = .sIn) := by
  induction L with
  | nil => simp [completesRun] at hc
  | cons o rest ih =>
    cases o with
    | clockInFound =>
      simp [check_status_from_driver]
    | clockOutFound =>
      have hsv := detectIn_saved now s
      have htm := detectIn_time now s
      have hst := detectIn_status now s
      refine ⟨?_, ?_⟩
      · show (detectIn now s).savedClockInTime = (detectIn now s).clockInTime
        rw [hsv, htm]
        by_cases ht : truthy s.clockInTime <;> simp [ht, hs]
      · show (detectIn now s).savedClockInTime ≠ none ↔
          (detectIn now s).status = .sIn
        rw [hsv, hst]
        by_cases ht : truthy s.clockInTime <;> simp [ht]
        rw [hs]
        exact truthy_ne_none _ ht
    | neitherNoDismiss =>
      simp [check_status_from_driver]
    | neitherDismissOk =>
      exact ih hc

/-- C1: after every completed run of `check_status_from_driver` (from a
state whose persisted and in-memory timestamps agree, as every save
keeps them) the persisted timer timestamp is non-null iff the detected
status is "in", and after every successful `clock_action` the persisted
timestamp is `time.time()` for a clock-in and null for a clock-out —
again non-null iff the status just set is "in". -/
theorem timer_nonnull_iff_status_in
    (now : Nat) (L : List PassOutcome) (s : AppState)
    (w : World) (a : Action) (t : AppState)
    (hc : completesRun L = true)
    (hs : s.savedClockInTime = s.clockInTime)
    (hsucc : (clock_action w a t).result = .success) :
    ((check_status_from_driver now L s).1.savedClockInTime =
       (check_status_from_driver now L s).1.clockInTime ∧
     ((check_status_from_driver now L s).1.savedClockInTime ≠ none ↔
       (check_status_from_driver now L s).1.status = .sIn)) ∧
    (((clock_action w a t).state.savedClockInTime ≠ none ↔
       (clock_action w a t).state.status = .sIn) ∧
     (a = .actIn → (clock_action w a t).state.savedClockInTime = some w.now) ∧
     (a = .actOut → (clock_action w a t).state.savedClockInTime = none)) := by
  refine ⟨detector_sync now L s hc hs, ?_⟩
  obtain ⟨h1, h2, h3⟩ := clock_action_success_state w a t hsucc
  cases a <;> simp_all [Action.toStatus]

/-- Witness for C1: one detection of "in" and one successful clock-in. -/
theorem timer_nonnull_iff_status_in_witness :
    ((check_status_from_driver 7 [.clockOutFound] stateOut).1.savedClockInTime
        ≠ none ↔
      (check_status_from_driver 7 [.clockOutFound] stateOut).1.status = .sIn) ∧
    (clock_action worldSmooth .actIn stateOut).state.savedClockInTime =
      some worldSmooth.now := by
  have h := timer_nonnull_iff_status_in 7 [.clockOutFound] stateOut
    worldSmooth .actIn stateOut (by decide) (by decide) (by decide)
  exact ⟨h.1.2, h.2.2.1 rfl⟩

section DetectorIdem

lemma detectOut_idem (s : AppState) : detectOut (detectOut s) = detectOut s := by
  rcases s with ⟨st, ti, ct, sv, dp, sa, ci, co, cf⟩
  rfl

lemma detectUnknown_idem (s : AppState) :
    detectUnknown (detectUnknown s) = detectUnknown s := by
  rcases s with ⟨st, ti, ct, sv, dp, sa, ci, co, cf⟩
  rfl

lemma detectIn_idem (now1 now2 : Nat) (s : AppState) (h : 0 < now1) :
    detectIn now2 (detectIn now1 s) = detectIn now1 s := by
  rcases s with ⟨st, ti, ct, sv, dp, sa, ci, co, cf⟩
  by_cases ht : truthy ct
  · simp [detectIn, ht, save_timer_state, update_menu_state]
  · have hinner : detectIn now1 ⟨st, ti, ct, sv, dp, sa, ci, co, cf⟩ =
        ⟨.sIn, "⏱☑", some now1, some now1, dp, sa, false, true, cf⟩ := by
      simp [detectIn, ht, save_timer_state, update_menu_state]
    rw [hinner]
    simp [detectIn, truthy, h.ne', save_timer_state, update_menu_state]

end DetectorIdem

/-- C4 counterexample: with the timer persisted as non-null and the site
showing the "Clock in" element, running the detector twice changes the
persisted timer value across the pair — it clears a present timestamp
(status "out") rather than only filling an absent one. -/
theorem detector_pair_clears_not_fills :
    (check_status_from_driver 9 [.clockInFound]
        ((check_status_from_driver 9 [.clockInFound] stateIn).1)).1.savedClockInTime
      = none ∧
    stateIn.savedClockInTime = some 5 ∧
    ¬ ((check_status_from_driver 9 [.clockInFound]
          ((check_status_from_driver 9 [.clockInFound] stateIn).1)).1.savedClockInTime
        = stateIn.savedClockInTime ∨
       stateIn.savedClockInTime = none) := by
  decide

/-- C4 amended: with identical DOM-probe outcomes and a nonzero first
timestamp, the second detector run is a complete no-op — same status
both times and the whole state, the persisted timer included, unchanged
by the second run; across the pair the first run may, besides filling an
absent timestamp on "in", also clear a present one on "out" or
"unknown". -/
theorem detector_second_run_noop (now1 now2 : Nat) (L : List PassOutcome)
    (s : AppState) (h : 0 < now1) :
    (check_status_from_driver now2 L
        ((check_status_from_driver now1 L s).1)).1 =
      (check_status_from_driver now1 L s).1 ∧
    (check_status_from_driver now2 L
        ((check_status_from_driver now1 L s).1)).1.status =
      (check_status_from_driver now1 L s).1.status := by
  have key : (check_status_from_driver now2 L
      ((check_status_from_driver now1 L s).1)).1 =
      (check_status_from_driver now1 L s).1 := by
    induction L with
    | nil => rfl
    | cons o rest ih =>
      cases o with
      | clockInFound => exact detectOut_idem s
      | clockOutFound => exact detectIn_idem now1 now2 s h
      | neitherNoDismiss => exact detectUnknown_idem s
      | neitherDismissOk => exact ih
  exact ⟨key, by rw [key]⟩

/-- Witness for C4's amended theorem. -/
theorem detector_second_run_noop_witness :
    (check_status_from_driver 3 [.clockOutFound]
        ((check_status_from_driver 9 [.clockOutFound] stateOut).1)).1 =
      (check_status_from_driver 9 [.clockOutFound] stateOut).1 :=
  (detector_second_run_noop 9 3 [.clockOutFound] stateOut (by decide)).1

/-- `close_browser_session` with the quit call's `Except` discharged:
whatever `driver.quit()` does, a present handle is dropped and the
session marked inactive, and otherwise nothing happens. -/
lemma close_browser_session_eq (q : Bool) (s : AppState) :
    close_browser_session q s =
      if s.driverPresent then
        { s with driverPresent := false, sessionActive := false }
      else s := by
  cases q <;> simp [close_browser_session, driverQuit]

/-- C2: when the 10s wait for the requested clock button times out,
`clock_action` checks the requested action against the currently known
status: on a match it posts the benign "Already clocked in/out"
notification, changes no state and does not restart the session; on a
mismatch it alerts that the button was not found and runs
`restart_browser_session` (a full close + re-init). -/
theorem clock_timeout_contextual (w : World) (a : Action) (s : AppState)
    (hconf : is_configured s.config = true)
    (hact : s.sessionActive = true)
    (hnav : w.navDashOk = true)
    (hto : w.buttonWait = false) :
    (matchesStatus a s.status = true →
      clock_action w a s =
        ⟨s,
         (match a with
          | .actIn => .alreadyClockedIn
          | .actOut => .alreadyClockedOut),
         false, true⟩) ∧
    (matchesStatus a s.status = false →
      (clock_action w a s).restarted = true ∧
      (clock_action w a s).result = .buttonNotFound ∧
      (clock_action w a s).state = (restart_browser_session w s).1) := by
  have hred : clock_action w a s = clock_action_try w a s := by
    simp [clock_action, clock_action_go, hconf, hact, hnav]
  rw [hred]
  constructor
  · intro hm
    cases a <;> cases hst : s.status <;>
      simp [matchesStatus, hst] at hm ⊢ <;>
      simp [clock_action_try, hto, hst]
  · intro hm
    cases a <;> cases hst : s.status <;>
      simp [matchesStatus, hst] at hm ⊢ <;>
      simp [clock_action_try, hto, hst]

/-- Witness for C2: clock-in requested while already clocked in,
with the button wait timing out. -/
theorem clock_timeout_contextual_witness :
    clock_action worldTimeout .actIn stateIn =
      ⟨stateIn, .alreadyClockedIn, false, true⟩ :=
  (clock_timeout_contextual worldTimeout .actIn stateIn
    (by decide) (by decide) (by decide) (by decide)).1 (by decide)

/-- C5: when the 2FA prompt appears and the user cancels the dialog or
submits an empty code, `handle_login` returns `False`, and
`init_browser_session` (which had just created the driver) closes the
session, returning failure with `session_active = False` and no driver
handle. -/
theorem twofa_cancel_no_active_session (w : World) (s : AppState)
    (h1 : w.login.alreadyLoggedIn = false)
    (h2 : w.login.passwordField = true)
    (h3 : w.login.twoFAPrompt = true)
    (h4 : w.login.twoFAClicked = false ∨ w.login.twoFACode = "")
    (h5 : w.createOk = true)
    (h6 : w.navLoginOk = true)
    (h7 : s.driverPresent = false) :
    handle_login w.login = false ∧
    (init_browser_session w s).2 = false ∧
    (init_browser_session w s).1.sessionActive = false ∧
    (init_browser_session w s).1.driverPresent = false := by
  have hl : handle_login w.login = false := by
    rcases h4 with h4 | h4 <;> simp [handle_login, h1, h2, h3, h4]
  refine ⟨hl, ?_, ?_, ?_⟩ <;>
    simp [init_browser_session, init_fresh, h5, h6, h7, hl,
      close_browser_session_eq]

/-- Witness for C5: the user cancels the 2FA dialog during a fresh
session initialization. -/
theorem twofa_cancel_no_active_session_witness :
    handle_login worldCancelled.login = false ∧
    (init_browser_session worldCancelled stateUnconfigured).2 = false ∧
    (init_browser_session worldCancelled stateUnconfigured).1.sessionActive
      = false :=
  have h := twofa_cancel_no_active_session worldCancelled stateUnconfigured
    (by decide) (by decide) (by decide) (Or.inl (by decide))
    (by decide) (by decide) (by decide)
  ⟨h.1, h.2.1, h.2.2.1⟩

section MenuInvariant

lemma menuInv_update (s : AppState) : MenuInv (update_menu_state s) := by
  rcases s with ⟨st, ti, ct, sv, dp, sa, ci, co, cf⟩
  cases st <;> simp [MenuInv, update_menu_state]

lemma menuInv_set_session (s : AppState) (dp sa : Bool) (h : MenuInv s) :
    MenuInv { s with driverPresent := dp, sessionActive := sa } :=
  ⟨h.1, h.2⟩

lemma menuInv_close (q : Bool) (s : AppState) (h : MenuInv s) :
    MenuInv (close_browser_session q s) := by
  rw [close_browser_session_eq]
  by_cases hdp : s.driverPresent <;> simp [hdp]
  · exact ⟨h.1, h.2⟩
  · exact h

lemma menuInv_detector (now : Nat) (L : List PassOutcome) (s : AppState)
    (h : MenuInv s) : MenuInv (check_status_from_driver now L s).1 := by
  induction L with
  | nil => exact h
  | cons o rest ih =>
    cases o with
    | clockInFound => exact menuInv_update _
    | clockOutFound => exact menuInv_update _
    | neitherNoDismiss => exact menuInv_update _
    | neitherDismissOk => exact ih

lemma menuInv_init_fresh (w : World) (s : AppState) (h : MenuInv s) :
    MenuInv (init_fresh w s).1 := by
  unfold init_fresh
  by_cases hc : w.createOk <;> simp [hc]
  · by_cases hn : w.navLoginOk <;> simp [hn]
    · by_cases hl : handle_login w.login <;> simp [hl]
      · exact menuInv_detector _ _ _ (menuInv_set_session s true true h)
      · exact menuInv_close _ _ (menuInv_set_session s true true h)
    · exact menuInv_close _ _ (menuInv_set_session s true true h)
  · exact menuInv_close _ _ h

lemma menuInv_init (w : World) (s : AppState) (h : MenuInv s) :
    MenuInv (init_browser_session w s).1 := by
  unfold init_browser_session
  by_cases hdp : s.driverPresent <;> simp [hdp]
  · by_cases hp : w.probeOk <;> simp [hp]
    · exact ⟨h.1, h.2⟩
    · cases w.staleQuitRaises <;>
        exact menuInv_init_fresh w _ ⟨h.1, h.2⟩
  · exact menuInv_init_fresh w s h

lemma menuInv_try (w : World) (a : Action) (s : AppState) (h : MenuInv s) :
    MenuInv (clock_action_try w a s).state := by
  unfold clock_action_try
  by_cases hb : (w.buttonWait && w.disappearOk) = true <;> simp [hb]
  · exact menuInv_update _
  · cases a <;> rcases s with ⟨st, ti, ct, sv, dp, sa, ci, co, cf⟩ <;>
      cases st <;> simp [restart_browser_session] <;>
      first
        | exact h
        | exact menuInv_init _ _ (menuInv_close _ _ h)

lemma menuInv_go (w : World) (a : Action) (s : AppState) (h : MenuInv s) :
    MenuInv (clock_action_go w a s).state := by
  unfold clock_action_go
  by_cases hn : w.navDashOk <;> simp [hn]
  · exact menuInv_try w a s h
  · by_cases hr : (init_browser_session w s).2 <;> simp [hr]
    · exact menuInv_try w a _ (menuInv_init w s h)
    · exact menuInv_init w s h

lemma menuInv_clock (w : World) (a : Action) (s : AppState) (h : MenuInv s) :
    MenuInv (clock_action w a s).state := by
  unfold clock_action
  by_cases hc : is_configured s.config <;> simp [hc]
  · by_cases hs : s.sessionActive <;> simp [hs]
    · exact menuInv_go w a s h
    · by_cases hr : (init_browser_session w s).2 <;> simp [hr]
      · exact menuInv_go w a _ (menuInv_init w s h)
      · exact menuInv_init w s h
  · exact h

lemma menuInv_check_nav (w : World) (s : AppState) (h : MenuInv s) :
    MenuInv (check_status_nav w s).1 := by
  unfold check_status_nav
  by_cases hn : w.navDashOk <;> simp [hn]
  · exact menuInv_detector _ _ _ h
  · by_cases hr : (init_browser_session w s).2 <;> simp [hr]
    · exact menuInv_detector _ _ _ (menuInv_init w s h)
    · exact menuInv_init w s h

lemma menuInv_check (w : World) (s : AppState) (h : MenuInv s) :
    MenuInv (check_status w s).1 := by
  unfold check_status
  by_cases hc : is_configured s.config <;> simp [hc]
  · by_cases hs : s.sessionActive <;> simp [hs]
    · exact menuInv_check_nav w s h
    · by_cases hr : (init_browser_session w s).2 <;> simp [hr]
      · exact menuInv_check_nav w _ (menuInv_init w s h)
      · exact menuInv_init w s h
  · exact h

lemma menuInv_err (s : AppState) : MenuInv (check_status_err s) := by
  simp [MenuInv, check_status_err]

lemma menuInv_step (op : AppOp) (s : AppState) (h : MenuInv s) :
    MenuInv (appStep op s) := by
  cases op with
  | opDetect now outcomes => exact menuInv_detector now outcomes s h
  | opClock w a => exact menuInv_clock w a s h
  | opInit w => exact menuInv_init w s h
  | opClose q => exact menuInv_close q s h
  | opCheckStatus w => exact menuInv_check w s h
  | opCheckStatusErr => exact menuInv_err s
  | opMenuUpdate => exact menuInv_update s

lemma menuInv_run (ops : List AppOp) (s : AppState) (h : MenuInv s) :
    MenuInv (runOps ops s) := by
  induction ops generalizing s with
  | nil => exact h
  | cons op rest ih => exact ih _ (menuInv_step op s h)

end MenuInvariant

/-- C10: `update_menu_state` nulls the Clock In callback whenever the
status is "in" and the Clock Out callback whenever it is "out", enabling
both only for "unknown"; since every status-mutating operation
re-establishes this (or leaves the fields alone), in every reachable
state the `clock_in`/`clock_out` handlers — which invoke `clock_action`
only when their item's callback is non-null — can never invoke
`clock_action("in")` while the status is "in" nor `clock_action("out")`
while it is "out". -/
theorem menu_blocks_matching_action (ops : List AppOp) (s0 : AppState)
    (h0 : MenuInv s0) :
    ((runOps ops s0).status = .sIn →
      clock_in_fires (runOps ops s0) = false) ∧
    ((runOps ops s0).status = .sOut →
      clock_out_fires (runOps ops s0) = false) ∧
    (∀ s : AppState, s.status = .sIn →
      (update_menu_state s).clockInCb = false) ∧
    (∀ s : AppState, s.status = .sOut →
      (update_menu_state s).clockOutCb = false) ∧
    (∀ s : AppState, s.status = .sUnknown →
      (update_menu_state s).clockInCb = true ∧
      (update_menu_state s).clockOutCb = true) := by
  have h := menuInv_run ops s0 h0
  refine ⟨fun hs => h.1 hs, fun hs => h.2 hs, ?_, ?_, ?_⟩ <;>
    intro s hs <;> simp [update_menu_state, hs]

/-- Witness for C10: after a run ending in a menu refresh with status
"in", the Clock In handler does not fire. -/
theorem menu_blocks_matching_action_witness :
    clock_in_fires (runOps [AppOp.opMenuUpdate] stateIn) = false :=
  (menu_blocks_matching_action [AppOp.opMenuUpdate] stateIn
    (by simp [MenuInv, stateIn])).1 (by decide)

end GustoPunch
